import Mathlib

/-!
# Verification of the GSM_RPICAM notification service core

Shallow embedding of the two core components of the repository:

* the Transfer Engine (`src/services/GoogleDriveService.ts`): upload job
  snapshots, the resumable chunk loop of `processResumableUpload`,
  `cancelUpload`, and the simple-upload completion path;
* the Orchestrator (`src/services/TriggerService.ts`): trigger snapshots and
  the three upload event handlers `handleUploadProgress`,
  `handleUploadComplete`, `handleUploadError` together with the notification
  routines they invoke.

Modelling conventions, each noted again at the definition it concerns:

* JavaScript numbers that only ever hold byte counts, timestamps or
  percentages are modelled as `Nat`; `Date.now()` is modelled as the
  constant `0` (no claim mentions wall-clock values).
* `Math.round((bytesUploaded / fileSize) * 100)` is modelled as exact
  rational half-up rounding (`jsRound`); every concrete input used in a
  theorem below is a dyadic rational at which double-precision evaluation
  is exact, so the model and the JavaScript expression agree there.
* The external world (Drive chunk responses, cancellation timing, the GSM
  location fix, SMS gateway results) is passed in as explicit script/input
  parameters; the engine run consumes one scripted response per chunk write.
* Each event handler is modelled as one run-to-quiescence step: the
  synchronous prefix of a fire-and-forget notification call runs at the call
  site, the handler's remaining synchronous code runs next, and the
  continuation after the notification routine's first `await` runs last —
  matching the deterministic Node.js microtask schedule when a single event
  is processed at a time.
-/

namespace GsmRpicam

/-- Lifecycle states of an upload job
(`UploadStatus.status` in `GoogleDriveService.ts`). -/
inductive UStatus where
  | pending
  | uploading
  | completed
  | failed
  | canceled
deriving DecidableEq, Repr

/-- Snapshot of one upload job, mirroring the `UploadStatus` interface of
`GoogleDriveService.ts` field by field. -/
structure UploadStatus where
  fileId : Option String
  fileName : String
  filePath : String
  startTime : Nat
  endTime : Option Nat
  bytesTotal : Nat
  bytesUploaded : Nat
  percentComplete : Nat
  status : UStatus
  error : Option String
  webViewLink : Option String
  webContentLink : Option String
deriving DecidableEq, Repr

/-- `RESUMABLE_THRESHOLD = 5 * 1024 * 1024` (5 MiB). -/
def RESUMABLE_THRESHOLD : Nat := 5 * 1024 * 1024

/-- `CHUNK_SIZE = 1024 * 1024` (1 MiB). -/
def CHUNK_SIZE : Nat := 1024 * 1024

/-- The initial snapshot created by `startUpload` (lines 210-223). -/
def initialStatus (fileName filePath : String) (fileSize : Nat) : UploadStatus :=
  { fileId := none
    fileName := fileName
    filePath := filePath
    startTime := 0
    endTime := none
    bytesTotal := fileSize
    bytesUploaded := 0
    percentComplete := 0
    status := .pending
    error := none
    webViewLink := none
    webContentLink := none }

/-- `processUpload` chooses the resumable path when
`status.bytesTotal > RESUMABLE_THRESHOLD` (line 271). -/
def useResumable (st : UploadStatus) : Bool :=
  RESUMABLE_THRESHOLD < st.bytesTotal

/-- `cancelUpload` (lines 632-646): returns `false` for an unknown job and for
a job whose status is `completed` or `failed`; otherwise sets the status to
`canceled`, stamps `endTime`, and returns `true`.  Note the terminal check
does not include `canceled` itself. -/
def cancelUpload (s : Option UploadStatus) (now : Nat) : Bool × Option UploadStatus :=
  match s with
  | none => (false, none)
  | some st =>
    if st.status = .completed ∨ st.status = .failed then (false, some st)
    else (true, some { st with status := .canceled, endTime := some now })

/-- `Math.round(x)` for `x = p / q` with `p q : Nat`, `q > 0`: half-up
rounding, `⌊(2p + q) / 2q⌋`.  Models line 506/518/531's
`Math.round((bytesUploaded / fileSize) * 100)` with `p = 100 * bytesUploaded`,
`q = fileSize`; exact for the dyadic inputs used in this file. -/
def jsRound (p q : Nat) : Nat := (2 * p + q) / (2 * q)

/-- Digits at the head of a character list. -/
def leadingDigits (cs : List Char) : List Char := cs.takeWhile Char.isDigit

/-- Decimal value of a digit list (the effect of `parseInt(_, 10)` on the
digit string captured by the range regex). -/
def digitsToNat (cs : List Char) : Nat :=
  cs.foldl (fun a c => 10 * a + (c.toNat - 48)) 0

/-- Search model of `/bytes=0-(\d+)/.exec(range)` (line 497): find the first
occurrence of `bytes=0-` followed by at least one digit and return the value
of the digit run. -/
def bytesRangeSearch : List Char → Option Nat
  | [] => none
  | c :: cs =>
    let pat := "bytes=0-".toList
    if (c :: cs).take pat.length = pat then
      let ds := leadingDigits ((c :: cs).drop pat.length)
      if ds.isEmpty then bytesRangeSearch cs else some (digitsToNat ds)
    else bytesRangeSearch cs

/-- `execBytesRange` applies the regex model to a Range header value. -/
def execBytesRange (s : String) : Option Nat := bytesRangeSearch s.toList

/-- New value of the local `bytesUploaded` after a 308 response
(lines 494-536): parsed range end plus one when the header parses, otherwise
optimistic advance by the chunk size (both the unparseable-header and the
missing-header fallbacks add `chunkSize`). -/
def advance308 (b clen : Nat) (range : Option String) : Nat :=
  match range with
  | some s =>
    match execBytesRange s with
    | some n => n + 1
    | none => b + clen
  | none => b + clen

/-- One scripted Drive response to a chunk write. -/
inductive ChunkResp where
  /-- 200/201: final response with the object metadata (lines 477-491). -/
  | done (fileId viewLink contentLink : Option String)
  /-- 308 with the optional Range header value (lines 492-536). -/
  | incomplete (range : Option String)
  /-- axios error with response status 404: session expired (lines 543-547). -/
  | sessionExpired
  /-- any other transport error (lines 549-551). -/
  | netError (msg : String)
deriving DecidableEq, Repr

/-- One chunk-boundary step of the environment: whether `cancelUpload` was
invoked at this chunk boundary (cancellation is cooperative and observed at
the next boundary), and the Drive response to the chunk write. -/
structure StepInput where
  cancelNow : Bool
  resp : ChunkResp
deriving DecidableEq, Repr

/-- The outer catch of `processResumableUpload` (lines 579-592): mark the job
failed, record the error, stamp `endTime`, emit `upload-error`. -/
def failStatus (st : UploadStatus) (msg : String) : UploadStatus :=
  { st with status := .failed, error := some msg, endTime := some 0 }

/-- Post-loop epilogue (lines 555-578): `makeFilePublic` is attempted when a
`fileId` is known — when it throws, the outer catch marks the job failed —
then the job is marked completed.  (`fetchFileLinksByFileId` only fills in
absent links from a remote query and never throws; no claim concerns the
links after the loop, so the link refresh is not modelled.) -/
def finishUpload (mkPublicFails : Bool) (st : UploadStatus) : UploadStatus :=
  if st.fileId.isSome ∧ mkPublicFails then
    failStatus st "Error making file public"
  else
    { st with status := .completed, endTime := some 0 }

/-- Result of a resumable-upload run: the final job snapshot, the sequence of
chunk writes issued (Content-Range start/end offsets), and the snapshots
carried by the emitted `upload-progress` events. -/
structure RunOut where
  st : UploadStatus
  writes : List (Nat × Nat)
  progress : List UploadStatus
deriving DecidableEq, Repr

/-- Length of the stream chunk at file position `pos`
(`highWaterMark = CHUNK_SIZE`, last chunk possibly shorter). -/
def chunkLen (fileSize pos : Nat) : Nat := min CHUNK_SIZE (fileSize - pos)

/-- The chunk loop of `processResumableUpload` (lines 443-578).

Arguments: `pos` is the file-stream position, `b` the local `bytesUploaded`
counter, `st` the job snapshot in the job table, and the script supplies one
`StepInput` per chunk write.  Per iteration (matching the source order):
the table status is re-read and, when it is `canceled`, the loop throws
`Upload canceled`, which the outer catch turns into a failed job;
otherwise the chunk write `bytes b-(b+len-1)/total` is issued and the
response handled: 200/201 stores the metadata and sets `bytesUploaded` to
the total (no progress event is emitted on this branch); 308 advances by
the parsed range (fallback: chunk size) and emits a progress event;
a 404 restarts the whole session from position zero with a fresh counter
(`return await this.processResumableUpload(...)`, line 546); any other
transport error propagates to the outer catch, failing the job at once.
An exhausted script while chunks remain models an unscripted transport
failure. -/
def resumableLoop (fileSize : Nat) (mkPublicFails : Bool) :
    Nat → Nat → UploadStatus → List StepInput → RunOut
  | pos, _, st, [] =>
    if fileSize ≤ pos then ⟨finishUpload mkPublicFails st, [], []⟩
    else ⟨failStatus st "Unknown error", [], []⟩
  | pos, b, st, ⟨cancelNow, resp⟩ :: rest =>
    if fileSize ≤ pos then ⟨finishUpload mkPublicFails st, [], []⟩
    else
      let st1 := if cancelNow then ((cancelUpload (some st) 0).2).getD st else st
      if st1.status = .canceled then
        ⟨failStatus st1 "Upload canceled", [], []⟩
      else
        let clen := chunkLen fileSize pos
        let w : Nat × Nat := (b, b + clen - 1)
        match resp with
        | .done fid vl cl =>
          let st' := { st1 with
                       fileId := fid
                       webViewLink := vl
                       webContentLink := cl
                       bytesUploaded := fileSize
                       percentComplete := 100 }
          let r := resumableLoop fileSize mkPublicFails (pos + clen) fileSize st' rest
          ⟨r.st, w :: r.writes, r.progress⟩
        | .incomplete range =>
          let b' := advance308 b clen range
          let st' := { st1 with
                       bytesUploaded := b'
                       percentComplete := jsRound (100 * b') fileSize }
          let r := resumableLoop fileSize mkPublicFails (pos + clen) b' st' rest
          ⟨r.st, w :: r.writes, st' :: r.progress⟩
        | .sessionExpired =>
          let r := resumableLoop fileSize mkPublicFails 0 0
                     { st1 with status := .uploading } rest
          ⟨r.st, w :: r.writes, r.progress⟩
        | .netError msg =>
          ⟨failStatus st1 msg, [w], []⟩

/-- `processResumableUpload` entry: the session is initiated, the job is
(re)marked `uploading` (line 433), and the loop starts at position zero with
a zero local counter; `fileSize = status.bytesTotal` (line 430). -/
def processResumableUpload (mkPublicFails : Bool) (st : UploadStatus)
    (steps : List StepInput) : RunOut :=
  resumableLoop st.bytesTotal mkPublicFails 0 0 { st with status := .uploading } steps

/-- Simple-path completion (lines 340-350): record metadata, set
`bytesUploaded` to the total and the percentage to exactly 100, mark
completed. -/
def processSimpleUpload (st : UploadStatus) (fid vl cl : Option String) : UploadStatus :=
  { st with
    fileId := fid
    webViewLink := vl
    webContentLink := cl
    bytesUploaded := st.bytesTotal
    percentComplete := 100
    status := .completed
    endTime := some 0 }

/-- An 8 MiB upload job (above the 5 MiB resumable threshold) as created by
`startUpload`. -/
def init8M : UploadStatus := initialStatus "video.h264" "/data/video.h264" (2 ^ 23)

/-! ## Orchestrator (`TriggerService.ts`) -/

/-- The `currentStep` values of a trigger (`TriggerStatus` interface). -/
inductive TriggerStep where
  | initialized
  | recording
  | uploading
  | notifying
  | completed
  | failed
deriving DecidableEq, Repr

/-- A GPS fix as returned by the GSM collaborator. -/
structure GPSLocation where
  latitude : String
  longitude : String
  available : Bool
deriving DecidableEq, Repr

/-- Snapshot of one trigger, mirroring the `TriggerStatus` interface.
`earlyNotificationSent` is an optional boolean in the source used only under
JavaScript truthiness (`startTrigger` initialises it to `false`), so it is a
`Bool` here; `smsStatus` is compared against `true` with strict inequality
(`!== true`), so it stays an `Option Bool`.  The `videoStatus` reference is
not modelled: no event handler reads it. -/
structure TriggerStatus where
  id : String
  createdAt : Nat
  completed : Bool
  currentStep : TriggerStep
  uploadId : Option String
  uploadStatus : Option UploadStatus
  uploadedFileId : Option String
  uploadedFileLink : Option String
  smsStatus : Option Bool
  earlyNotificationSent : Bool
  locationData : Option GPSLocation
  error : Option String
deriving DecidableEq, Repr

/-- The kind of SMS a notification routine would hand to
`GSMService.sendNewSMS`; message bodies are composed only after the
phone-number check that every notification routine performs, so the claims
(which only ask whether a notification is sent) are insensitive to the text
and it is abstracted to a kind tag. -/
inductive SmsKind where
  | early
  | final
  | errorNote
deriving DecidableEq, Repr

/-- One call to `GSMService.sendNewSMS`. -/
structure SmsSend where
  phone : String
  kind : SmsKind
deriving DecidableEq, Repr

/-- `extractConfigFromStatus` (lines 652-662): rebuilds a `TriggerConfig`
from a stored snapshot.  The source returns `phoneNumber: ''` with the
comment `Must be filled in by the caller`; the duration falls back to
`10000` when no video status is stored. -/
structure TriggerConfig where
  videoDuration : Nat
  phoneNumber : String
  sendEarlyNotification : Bool
  includeLocation : Bool
deriving DecidableEq, Repr

/-- See `TriggerConfig`; the phone number is always the empty string. -/
def extractConfigFromStatus (_t : TriggerStatus) : TriggerConfig :=
  { phoneNumber := ""
    videoDuration := 10000
    sendEarlyNotification := false
    includeLocation := true }

/-- `updateLocationData` (lines 286-310): store the GSM fix on the trigger;
a failed `getLocation` (modelled by `none`) is caught and leaves the trigger
unchanged. -/
def updateLocationData (loc? : Option GPSLocation) (t : TriggerStatus) : TriggerStatus :=
  match loc? with
  | some l => { t with locationData := some l }
  | none => t

/-- `sendEarlyNotification` (lines 460-517) run to quiescence.  Returns the
trigger state, the SMS sends performed, and whether the routine threw.
Order as in the source: return early when the flag is already set; update
the location; set the stage to `notifying` and persist; extract the config —
whose phone number is always empty, so the routine then throws
`No phone number found` before reaching the GSM-ready check, the message
composition and the `sendNewSMS` call.  The remaining branches are kept for
faithfulness: were a phone number present, a failed GSM initialisation
throws, and otherwise the SMS is sent and the flag and `smsStatus` are set. -/
def sendEarlyNotificationRun (loc? : Option GPSLocation) (gsmReady smsOk : Bool)
    (t : TriggerStatus) : TriggerStatus × List SmsSend × Bool :=
  if t.earlyNotificationSent then (t, [], false)
  else
    let t1 := updateLocationData loc? t
    let t2 := { t1 with currentStep := .notifying }
    let cfg := extractConfigFromStatus t2
    if cfg.phoneNumber = "" then (t2, [], true)
    else if ¬ gsmReady then (t2, [], true)
    else
      ({ t2 with earlyNotificationSent := true, smsStatus := some smsOk },
        [⟨cfg.phoneNumber, .early⟩], false)

/-- The per-trigger effect of `handleUploadProgress` (lines 91-116) on the
matching trigger: store the upload snapshot; when the snapshot reports at
least 10 % and no early notification was sent and `smsStatus !== true`,
fire `sendEarlyNotification` (its rejection is swallowed by `.catch`, but
its state mutations persist). -/
def onProgress (us : UploadStatus) (loc? : Option GPSLocation) (gsmReady smsOk : Bool)
    (t : TriggerStatus) : TriggerStatus × List SmsSend :=
  let t1 := { t with uploadStatus := some us }
  if 10 ≤ us.percentComplete ∧ ¬ t1.earlyNotificationSent ∧ t1.smsStatus ≠ some true then
    let r := sendEarlyNotificationRun loc? gsmReady smsOk t1
    (r.1, r.2.1)
  else (t1, [])

/-- The per-trigger effect of `handleUploadComplete` (lines 121-151) on the
matching trigger, with the Node microtask schedule made explicit:

1. synchronously store the snapshot, file id and link (lines 126-128);
2. when the early flag is unset, `sendSmsNotification` is fired without
   `await` (line 132); its synchronous prefix (lines 527-539) re-checks the
   flag and throws at once when no upload link is stored, otherwise it
   suspends at `await updateLocationData`;
3. the handler's remaining code runs: the stage is advanced to `completed`
   (and the completion flag set) only if the stage is still `uploading`
   (lines 141-145);
4. the suspended continuation resumes: location update, stage set to
   `notifying` (line 544), then the phone number extracted from the stored
   status is empty, so the routine throws `No phone number found`
   (lines 548-555) before composing the message or calling `sendNewSMS`. -/
def onComplete (us : UploadStatus) (loc? : Option GPSLocation)
    (t : TriggerStatus) : TriggerStatus × List SmsSend :=
  let t1 := { t with
              uploadStatus := some us
              uploadedFileId := us.fileId
              uploadedFileLink := us.webViewLink }
  let fireCont := ¬ t1.earlyNotificationSent ∧ t1.uploadedFileLink ≠ none
  let t2 := if t1.currentStep = .uploading
            then { t1 with currentStep := .completed, completed := true }
            else t1
  if fireCont then
    let t3 := updateLocationData loc? t2
    let t4 := { t3 with currentStep := .notifying }
    (t4, [])
  else (t2, [])

/-- The per-trigger effect of `handleUploadError` (lines 156-179): record the
error; when the early flag is unset fire `sendErrorNotification` (whose first
`await` precedes any check, so all of its effects are deferred); mark the
trigger `failed` and completed; then the deferred continuation updates the
location and throws at the empty extracted phone number (lines 610-613)
before reaching `sendNewSMS`, leaving flag and `smsStatus` untouched. -/
def onError (msg : String) (loc? : Option GPSLocation)
    (t : TriggerStatus) : TriggerStatus × List SmsSend :=
  let t1 := { t with error := some ("Upload error: " ++ msg) }
  let fireCont := ¬ t1.earlyNotificationSent
  let t2 := { t1 with currentStep := .failed, completed := true }
  if fireCont then (updateLocationData loc? t2, [])
  else (t2, [])

/-- Test whether a trigger tracks the given upload id
(`triggerStatus.uploadId === uploadId`). -/
def matchesUpload (uid : String) (t : TriggerStatus) : Bool := t.uploadId = some uid

/-- The `for ... of this.triggers.entries()` / `break` pattern shared by all
three handlers: apply `f` to the first entry whose trigger satisfies `p` and
leave every other entry untouched (JS `Map` iteration is insertion-ordered
and `set` on an existing key keeps its position). -/
def dispatchFirst (p : TriggerStatus → Bool)
    (f : TriggerStatus → TriggerStatus × List SmsSend) :
    List (String × TriggerStatus) → List (String × TriggerStatus) × List SmsSend
  | [] => ([], [])
  | (k, t) :: rest =>
    if p t then ((k, (f t).1) :: rest, (f t).2)
    else
      let r := dispatchFirst p f rest
      ((k, t) :: r.1, r.2)

/-- `handleUploadProgress` over the whole trigger table. -/
def handleUploadProgress (uid : String) (us : UploadStatus) (loc? : Option GPSLocation)
    (gsmReady smsOk : Bool) (tbl : List (String × TriggerStatus)) :
    List (String × TriggerStatus) × List SmsSend :=
  dispatchFirst (matchesUpload uid) (onProgress us loc? gsmReady smsOk) tbl

/-- `handleUploadComplete` over the whole trigger table. -/
def handleUploadComplete (uid : String) (us : UploadStatus) (loc? : Option GPSLocation)
    (tbl : List (String × TriggerStatus)) :
    List (String × TriggerStatus) × List SmsSend :=
  dispatchFirst (matchesUpload uid) (onComplete us loc?) tbl

/-- `handleUploadError` over the whole trigger table. -/
def handleUploadError (uid : String) (msg : String) (loc? : Option GPSLocation)
    (tbl : List (String × TriggerStatus)) :
    List (String × TriggerStatus) × List SmsSend :=
  dispatchFirst (matchesUpload uid) (onError msg loc?) tbl

/-- One `upload-progress` event together with the environment inputs its
handling consumes. -/
structure ProgressEvent where
  uid : String
  us : UploadStatus
  loc? : Option GPSLocation
deriving DecidableEq, Repr

/-- A whole run of `upload-progress` events delivered to the orchestrator,
collecting every SMS send performed along the way. -/
def runProgressEvents (gsmReady smsOk : Bool) :
    List ProgressEvent → List (String × TriggerStatus) →
    List (String × TriggerStatus) × List SmsSend
  | [], tbl => (tbl, [])
  | e :: es, tbl =>
    let r := handleUploadProgress e.uid e.us e.loc? gsmReady smsOk tbl
    let r' := runProgressEvents gsmReady smsOk es r.1
    (r'.1, r.2 ++ r'.2)

/-! ## Helper lemmas -/

/-- The chunk loop at or past the end of the stream runs the epilogue,
whatever the remaining script. -/
theorem resumableLoop_finish (fs : Nat) (mk : Bool) (pos b : Nat) (st : UploadStatus)
    (steps : List StepInput) (hle : fs ≤ pos) :
    resumableLoop fs mk pos b st steps = ⟨finishUpload mk st, [], []⟩ := by
  cases steps with
  | nil => simp [resumableLoop, hle]
  | cons s rest =>
    obtain ⟨c, r⟩ := s
    simp [resumableLoop, hle]

/-- Unfolding one loop iteration on a 308 response whose Range header
parses: the job's byte count becomes the parsed end plus one and the
percentage the half-up rounded ratio, a progress event carries that
snapshot, and the next iteration starts its write at the new count. -/
theorem resumableLoop_step_incomplete (fs : Nat) (mk : Bool) (pos b : Nat)
    (st : UploadStatus) (s : String) (n : Nat) (rest : List StepInput)
    (hc : st.status ≠ .canceled) (hpos : pos < fs) (hp : execBytesRange s = some n) :
    resumableLoop fs mk pos b st (⟨false, .incomplete (some s)⟩ :: rest) =
      (let st' : UploadStatus := { st with
         bytesUploaded := n + 1
         percentComplete := jsRound (100 * (n + 1)) fs }
       let r := resumableLoop fs mk (pos + chunkLen fs pos) (n + 1) st' rest
       ⟨r.st, (b, b + chunkLen fs pos - 1) :: r.writes, st' :: r.progress⟩) := by
  simp [resumableLoop, Nat.not_le.mpr hpos, hc, advance308, hp]

/-- Every chunk iteration issues its write before looking at the response,
so the head of the write list is the current range. -/
theorem resumableLoop_writes_head (fs : Nat) (mk : Bool) (pos b : Nat)
    (st : UploadStatus) (resp : ChunkResp) (rest : List StepInput)
    (hc : st.status ≠ .canceled) (hpos : pos < fs) :
    (resumableLoop fs mk pos b st (⟨false, resp⟩ :: rest)).writes.head? =
      some (b, b + chunkLen fs pos - 1) := by
  cases resp <;> simp [resumableLoop, Nat.not_le.mpr hpos, hc]

/-- The status field survives the 308 bookkeeping update. -/
theorem status_after_progress (st : UploadStatus) (b p : Nat) :
    ({ st with bytesUploaded := b, percentComplete := p } : UploadStatus).status
      = st.status := rfl

/-! ## C1 — chunk-write retry policy -/

/-- C1 (counterexample): the claim says a chunk write failing with a
transport error is retried up to 5 times with exponential backoff before the
job is marked Failed.  On an 8 MiB resumable upload whose first chunk write
fails with a transport error, the job is already `failed` with that error
recorded and exactly one chunk write was ever issued — no retry of the chunk
happens at all. -/
theorem C1_counterexample :
    (processResumableUpload false init8M [⟨false, .netError "socket hang up"⟩]).st.status
        = .failed ∧
    (processResumableUpload false init8M [⟨false, .netError "socket hang up"⟩]).st.error
        = some "socket hang up" ∧
    (processResumableUpload false init8M [⟨false, .netError "socket hang up"⟩]).writes
        = [(0, 2 ^ 20 - 1)] := by
  decide

/-- C1 (amended): a chunk write that fails with a transport error is not
retried: unless the failure is the session-expired (404) case — which
restarts the whole session from position zero with a fresh byte counter —
the job is immediately marked Failed with the transport error recorded,
exactly one write having been issued for that chunk and the remaining
script untouched. -/
theorem C1_amended_theorem (fs pos b : Nat) (st : UploadStatus) (mk : Bool)
    (msg : String) (rest : List StepInput)
    (hc : st.status ≠ .canceled) (hpos : pos < fs) :
    resumableLoop fs mk pos b st (⟨false, .netError msg⟩ :: rest) =
      ⟨failStatus st msg, [(b, b + chunkLen fs pos - 1)], []⟩ ∧
    resumableLoop fs mk pos b st (⟨false, .sessionExpired⟩ :: rest) =
      (let r := resumableLoop fs mk 0 0 { st with status := .uploading } rest
       ⟨r.st, (b, b + chunkLen fs pos - 1) :: r.writes, r.progress⟩) := by
  constructor <;> simp [resumableLoop, Nat.not_le.mpr hpos, hc]

/-- C1 (witness): the amended theorem applied to a concrete 8 MiB job. -/
theorem C1_witness :
    resumableLoop (2 ^ 23) false 0 0 { init8M with status := .uploading }
        [⟨false, .netError "socket hang up"⟩] =
      ⟨failStatus { init8M with status := .uploading } "socket hang up",
        [(0, chunkLen (2 ^ 23) 0 - 1)], []⟩ ∧
    resumableLoop (2 ^ 23) false 0 0 { init8M with status := .uploading }
        [⟨false, .sessionExpired⟩] =
      (let r := resumableLoop (2 ^ 23) false 0 0
          { { init8M with status := .uploading } with status := .uploading } []
       ⟨r.st, (0, chunkLen (2 ^ 23) 0 - 1) :: r.writes, r.progress⟩) := by
  simpa using C1_amended_theorem (2 ^ 23) 0 0 { init8M with status := .uploading }
    false "socket hang up" [] (by decide) (by decide)

/-! ## C2 — terminal states are never left -/

/-- An 8 MiB job mid-transfer. -/
def uploading8M : UploadStatus := { init8M with status := .uploading }

/-- C2 (counterexample): the claim says no job leaves a terminal state, in
particular a Canceled job never becomes Failed.  Cancelling the 8 MiB job
puts it in `canceled`; when the chunk loop then observes the cancellation at
the next chunk boundary, it throws `Upload canceled` and the outer catch
re-marks the very same job `failed`. -/
theorem C2_counterexample :
    ((cancelUpload (some uploading8M) 0).2.map (·.status) = some .canceled) ∧
    (processResumableUpload false init8M [⟨true, .incomplete none⟩]).st.status = .failed ∧
    (processResumableUpload false init8M [⟨true, .incomplete none⟩]).st.error
      = some "Upload canceled" := by
  decide

/-- C2 (amended): Completed and Failed are indeed never left — `cancelUpload`
returns false and leaves such a job untouched — but Canceled is not stable:
a job whose status is `canceled` when the resumable chunk loop reaches a
chunk boundary is re-marked Failed with error `Upload canceled`. -/
theorem C2_amended_theorem (st1 st2 : UploadStatus) (now fs pos b : Nat)
    (mk : Bool) (resp : ChunkResp) (rest : List StepInput)
    (h1 : st1.status = .completed ∨ st1.status = .failed)
    (h2 : st2.status = .canceled) (hpos : pos < fs) :
    cancelUpload (some st1) now = (false, some st1) ∧
    resumableLoop fs mk pos b st2 (⟨false, resp⟩ :: rest) =
      ⟨failStatus st2 "Upload canceled", [], []⟩ := by
  constructor
  · rcases h1 with h | h <;> simp [cancelUpload, h]
  · simp [resumableLoop, Nat.not_le.mpr hpos, h2]

/-- A completed job, for witnesses about terminal states. -/
def completed8M : UploadStatus :=
  { init8M with status := .completed, bytesUploaded := 2 ^ 23, percentComplete := 100 }

/-- A canceled job, for witnesses about terminal states. -/
def canceled8M : UploadStatus := { init8M with status := .canceled, endTime := some 0 }

/-- C2 (witness): the amended theorem at concrete jobs. -/
theorem C2_witness :
    cancelUpload (some completed8M) 0 = (false, some completed8M) ∧
    resumableLoop (2 ^ 23) false 0 0 canceled8M [⟨false, .incomplete none⟩] =
      ⟨failStatus canceled8M "Upload canceled", [], []⟩ :=
  C2_amended_theorem completed8M canceled8M 0 (2 ^ 23) 0 0 false (.incomplete none) []
    (by decide) (by decide) (by decide)

/-! ## C5 — cancelUpload semantics -/

/-- C5 (counterexample): the claim says `cancelUpload` on a job already
Canceled returns false and changes nothing; in the code the terminal check
only covers `completed` and `failed`, so a second cancellation of an
already-canceled job returns `true` again. -/
theorem C5_counterexample : (cancelUpload (some canceled8M) 0).1 = true := by decide

/-- C5 (amended): `cancelUpload` returns false and leaves the job unchanged
exactly when the job is unknown or already `completed`/`failed`; any other
job — including one already `canceled` — is (re)marked Canceled with a fresh
`endTime` and the call returns true, so a second cancellation of a canceled
job returns true again rather than false. -/
theorem C5_amended_theorem (st1 st2 : UploadStatus) (now now' : Nat)
    (h1 : st1.status = .completed ∨ st1.status = .failed)
    (h2 : st2.status ≠ .completed) (h3 : st2.status ≠ .failed) :
    cancelUpload none now = (false, none) ∧
    cancelUpload (some st1) now = (false, some st1) ∧
    cancelUpload (some st2) now =
      (true, some { st2 with status := .canceled, endTime := some now }) ∧
    cancelUpload ((cancelUpload (some st2) now).2) now' =
      (true, some { st2 with status := .canceled, endTime := some now' }) := by
  refine ⟨rfl, ?_, ?_, ?_⟩
  · rcases h1 with h | h <;> simp [cancelUpload, h]
  · simp [cancelUpload, h2, h3]
  · simp [cancelUpload, h2, h3]

/-- C5 (witness): the amended theorem at concrete jobs (a completed job and
an already-canceled one). -/
theorem C5_witness :
    cancelUpload none 0 = (false, none) ∧
    cancelUpload (some completed8M) 0 = (false, some completed8M) ∧
    cancelUpload (some canceled8M) 0 =
      (true, some { canceled8M with status := .canceled, endTime := some 0 }) ∧
    cancelUpload ((cancelUpload (some canceled8M) 0).2) 1 =
      (true, some { canceled8M with status := .canceled, endTime := some 1 }) :=
  C5_amended_theorem completed8M canceled8M 0 1 (by decide) (by decide) (by decide)

/-! ## C6 — progress monotonicity and the total-on-completion equality -/

/-- A server trace whose session expires on the third chunk: two acknowledged
chunks, a 404, and a first acknowledgement of the restarted session. -/
def restartScript : List StepInput :=
  [⟨false, .incomplete (some "bytes=0-1048575")⟩,
   ⟨false, .incomplete (some "bytes=0-2097151")⟩,
   ⟨false, .sessionExpired⟩,
   ⟨false, .incomplete (some "bytes=0-1048575")⟩]

/-- Seven optimistic 1 MiB acknowledgements (308 without a Range header). -/
def sevenFallbacks : List StepInput := List.replicate 7 ⟨false, .incomplete none⟩

/-- C6 (counterexample): the claim says progress events report non-decreasing
`bytesUploaded` — including across a session-expiry restart — and that
`bytesUploaded = bytesTotal` exactly when the state becomes Completed.
All three parts fail on an 8 MiB upload: (1) across a restart the emitted
byte counts are 1 MiB, 2 MiB, then 1 MiB again — not non-decreasing;
(2) a job whose final chunk succeeds but whose make-public call throws ends
`failed` with `bytesUploaded = bytesTotal`; (3) a job whose final chunk gets
a 308 reporting only half the bytes ends `completed` with
`bytesUploaded ≠ bytesTotal`. -/
theorem C6_counterexample :
    ((processResumableUpload false init8M restartScript).progress.map (·.bytesUploaded) =
      [1048576, 2097152, 1048576]) ∧
    (((processResumableUpload false init8M restartScript).progress.map
        (·.bytesUploaded)).get? 1 = some 2097152 ∧
     ((processResumableUpload false init8M restartScript).progress.map
        (·.bytesUploaded)).get? 2 = some 1048576 ∧ 1048576 < 2097152) ∧
    ((processResumableUpload true init8M
        (sevenFallbacks ++ [⟨false, .done (some "f1") none none⟩])).st.status = .failed ∧
     (processResumableUpload true init8M
        (sevenFallbacks ++ [⟨false, .done (some "f1") none none⟩])).st.bytesUploaded =
       (processResumableUpload true init8M
        (sevenFallbacks ++ [⟨false, .done (some "f1") none none⟩])).st.bytesTotal) ∧
    ((processResumableUpload false init8M
        (sevenFallbacks ++ [⟨false, .incomplete (some "bytes=0-4194303")⟩])).st.status
          = .completed ∧
     (processResumableUpload false init8M
        (sevenFallbacks ++ [⟨false, .incomplete (some "bytes=0-4194303")⟩])).st.bytesUploaded ≠
       (processResumableUpload false init8M
        (sevenFallbacks ++ [⟨false, .incomplete (some "bytes=0-4194303")⟩])).st.bytesTotal) := by
  decide

/-- C6 (amended): within one resumable session a chunk acknowledgement never
decreases the byte count as long as any parsed Range end covers the bytes
already counted — the missing/unparseable-header fallback advances by the
chunk length — and a job whose final chunk write is acknowledged with a
success response (with the make-public call succeeding) completes with
`bytesUploaded = bytesTotal`; across a session-expiry restart the byte
accounting restarts from zero, and the emitted byte counts can decrease. -/
theorem C6_amended_theorem (b clen fs pos : Nat) (st : UploadStatus) (s : String)
    (n : Nat) (fid vl cl : Option String) (rest : List StepInput)
    (hc : st.status ≠ .canceled) (hpos : pos < fs)
    (hlast : fs ≤ pos + chunkLen fs pos)
    (hp : execBytesRange s = some n) (hmono : b ≤ n + 1) :
    advance308 b clen none = b + clen ∧
    (∀ s', execBytesRange s' = none → advance308 b clen (some s') = b + clen) ∧
    b ≤ advance308 b clen (some s) ∧
    ((resumableLoop fs false pos b st (⟨false, .done fid vl cl⟩ :: rest)).st.status
        = .completed ∧
     (resumableLoop fs false pos b st (⟨false, .done fid vl cl⟩ :: rest)).st.bytesUploaded
        = fs) ∧
    ((processResumableUpload false init8M restartScript).progress.map (·.bytesUploaded) =
      [1048576, 2097152, 1048576]) := by
  have hfin := fun b' st' steps' =>
    resumableLoop_finish fs false (pos + chunkLen fs pos) b' st' steps' hlast
  refine ⟨rfl, ?_, ?_, ⟨?_, ?_⟩, by decide⟩
  · intro s' h
    simp [advance308, h]
  · simpa [advance308, hp] using hmono
  · simp [resumableLoop, Nat.not_le.mpr hpos, hc, hfin, finishUpload]
  · simp [resumableLoop, Nat.not_le.mpr hpos, hc, hfin, finishUpload]

/-- C6 (witness): the amended theorem at the final chunk of a concrete 8 MiB
job with a consistent server range. -/
theorem C6_witness :
    advance308 0 7 none = 0 + 7 ∧
    (∀ s', execBytesRange s' = none → advance308 0 7 (some s') = 0 + 7) ∧
    0 ≤ advance308 0 7 (some "bytes=0-1048575") ∧
    ((resumableLoop (2 ^ 23) false (2 ^ 23 - 2 ^ 20) 0 uploading8M
        [⟨false, .done (some "f1") none none⟩]).st.status = .completed ∧
     (resumableLoop (2 ^ 23) false (2 ^ 23 - 2 ^ 20) 0 uploading8M
        [⟨false, .done (some "f1") none none⟩]).st.bytesUploaded = 2 ^ 23) ∧
    ((processResumableUpload false init8M restartScript).progress.map (·.bytesUploaded) =
      [1048576, 2097152, 1048576]) :=
  C6_amended_theorem 0 7 (2 ^ 23) (2 ^ 23 - 2 ^ 20) uploading8M "bytes=0-1048575"
    1048575 (some "f1") none none [] (by decide) (by decide) (by decide) (by decide)
    (by decide)

/-! ## C8 — percentage formula -/

/-- C8 (counterexample): the claim says the percentage is
`floor(bytesUploaded / bytesTotal * 100)` and equals 100 only when the state
is Completed.  After the first chunk of an 8 MiB upload is acknowledged with
range `bytes=0-1048575`, the emitted snapshot reports 13 % — `Math.round` of
12.5 — while the floor is 12. -/
theorem C8_counterexample :
    ((processResumableUpload false init8M
        [⟨false, .incomplete (some "bytes=0-1048575")⟩]).progress.map
        (fun u => (u.bytesUploaded, u.percentComplete)) = [(1048576, 13)]) ∧
    100 * 1048576 / 2 ^ 23 = 12 ∧ (13 : Nat) ≠ 12 := by
  decide

/-- C8 (amended): on the resumable path a parsed 308 acknowledgement sets the
percentage to the half-up rounding (`Math.round`) of
`bytesUploaded / bytesTotal * 100`; the completion paths (simple upload, and
a success response on the final chunk) set it to exactly 100; and a progress
snapshot can already report 100 while the job is still `uploading`. -/
theorem C8_amended_theorem (fs pos b : Nat) (st : UploadStatus) (mk : Bool)
    (s : String) (n : Nat) (rest : List StepInput) (fid vl cl : Option String)
    (hc : st.status ≠ .canceled) (hpos : pos < fs)
    (hlast : fs ≤ pos + chunkLen fs pos) (hp : execBytesRange s = some n) :
    ((resumableLoop fs mk pos b st (⟨false, .incomplete (some s)⟩ :: rest)).progress.head?.map
        (·.percentComplete) = some (jsRound (100 * (n + 1)) fs)) ∧
    (processSimpleUpload st fid vl cl).percentComplete = 100 ∧
    ((resumableLoop fs false pos b st (⟨false, .done fid vl cl⟩ :: rest)).st.percentComplete
        = 100) ∧
    ((processResumableUpload false init8M
        [⟨false, .incomplete (some "bytes=0-8355839")⟩]).progress.map
        (fun u => (u.percentComplete, u.status)) = [(100, .uploading)]) := by
  have hfin := fun b' st' steps' =>
    resumableLoop_finish fs false (pos + chunkLen fs pos) b' st' steps' hlast
  refine ⟨?_, rfl, ?_, by decide⟩
  · rw [resumableLoop_step_incomplete fs mk pos b st s n rest hc hpos hp]
    simp
  · simp [resumableLoop, Nat.not_le.mpr hpos, hc, hfin, finishUpload]

/-- C8 (witness): the amended theorem at the final chunk of a concrete 8 MiB
job. -/
theorem C8_witness :
    ((resumableLoop (2 ^ 23) false (2 ^ 23 - 2 ^ 20) 0 uploading8M
        [⟨false, .incomplete (some "bytes=0-1048575")⟩]).progress.head?.map
        (·.percentComplete) = some (jsRound (100 * (1048575 + 1)) (2 ^ 23))) ∧
    (processSimpleUpload uploading8M (some "f1") none none).percentComplete = 100 ∧
    ((resumableLoop (2 ^ 23) false (2 ^ 23 - 2 ^ 20) 0 uploading8M
        [⟨false, .done (some "f1") none none⟩]).st.percentComplete = 100) ∧
    ((processResumableUpload false init8M
        [⟨false, .incomplete (some "bytes=0-8355839")⟩]).progress.map
        (fun u => (u.percentComplete, u.status)) = [(100, .uploading)]) :=
  C8_amended_theorem (2 ^ 23) (2 ^ 23 - 2 ^ 20) 0 uploading8M false "bytes=0-1048575"
    1048575 [] (some "f1") none none (by decide) (by decide) (by decide) (by decide)

/-! ## C9 — 308 range handling -/

/-- C9: a chunk write answered by a 308 whose Range header reports received
bytes 0–1,048,575 sets `bytesUploaded` to 1,048,576 (the parsed range end
plus one), the emitted progress snapshot carries that value, and the next
chunk write's Content-Range starts at offset 1,048,576 — whatever the
response to that next write turns out to be. -/
theorem C9_theorem (fs pos b : Nat) (st : UploadStatus) (mk : Bool)
    (resp2 : ChunkResp) (rest : List StepInput)
    (hc : st.status ≠ .canceled) (hpos : pos < fs)
    (hnext : pos + chunkLen fs pos < fs) :
    ((resumableLoop fs mk pos b st
        (⟨false, .incomplete (some "bytes=0-1048575")⟩ :: ⟨false, resp2⟩ :: rest)).progress.head?.map
        (·.bytesUploaded) = some 1048576) ∧
    (resumableLoop fs mk pos b st
        (⟨false, .incomplete (some "bytes=0-1048575")⟩ :: ⟨false, resp2⟩ :: rest)).writes.take 2 =
      [(b, b + chunkLen fs pos - 1),
       (1048576, 1048576 + chunkLen fs (pos + chunkLen fs pos) - 1)] := by
  have hparse : execBytesRange "bytes=0-1048575" = some 1048575 := by decide
  rw [resumableLoop_step_incomplete fs mk pos b st _ 1048575 _ hc hpos hparse]
  have hc' : ({ st with bytesUploaded := 1048575 + 1, percentComplete := jsRound (100 * (1048575 + 1)) fs } : UploadStatus).status ≠ .canceled := hc
  have hw := resumableLoop_writes_head fs mk (pos + chunkLen fs pos) (1048575 + 1)
    { st with bytesUploaded := 1048575 + 1, percentComplete := jsRound (100 * (1048575 + 1)) fs } resp2 rest hc' hnext
  refine ⟨by simp, ?_⟩
  simp only [List.take_succ_cons, List.take_one]
  rw [hw]
  simp

/-- C9 (witness): the theorem at the first chunk of a concrete 8 MiB job
whose second chunk write fails. -/
theorem C9_witness :
    ((resumableLoop (2 ^ 23) false 0 0 uploading8M
        [⟨false, .incomplete (some "bytes=0-1048575")⟩,
         ⟨false, .netError "socket hang up"⟩]).progress.head?.map
        (·.bytesUploaded) = some 1048576) ∧
    (resumableLoop (2 ^ 23) false 0 0 uploading8M
        [⟨false, .incomplete (some "bytes=0-1048575")⟩,
         ⟨false, .netError "socket hang up"⟩]).writes.take 2 =
      [(0, 0 + chunkLen (2 ^ 23) 0 - 1),
       (1048576, 1048576 + chunkLen (2 ^ 23) (0 + chunkLen (2 ^ 23) 0) - 1)] :=
  C9_theorem (2 ^ 23) 0 0 uploading8M false (.netError "socket hang up") []
    (by decide) (by decide) (by decide)

/-! ## Trigger-side helper lemmas -/

/-- A handler leaves a table without any matching trigger untouched and
performs no sends. -/
theorem dispatchFirst_no_match (p : TriggerStatus → Bool)
    (f : TriggerStatus → TriggerStatus × List SmsSend) :
    ∀ tbl : List (String × TriggerStatus),
      (∀ kt ∈ tbl, p kt.2 = false) → dispatchFirst p f tbl = (tbl, []) := by
  intro tbl
  induction tbl with
  | nil => intro _; rfl
  | cons kt rest ih =>
    intro h
    obtain ⟨k, t⟩ := kt
    have hkt : p t = false := h (k, t) (by simp)
    have hrest := ih (fun kt hm => h kt (by simp [hm]))
    simp [dispatchFirst, hkt, hrest]

/-- A handler transforms exactly the first matching entry and leaves every
entry before and after it untouched. -/
theorem dispatchFirst_first_match (p : TriggerStatus → Bool)
    (f : TriggerStatus → TriggerStatus × List SmsSend) (k : String) (t : TriggerStatus)
    (post : List (String × TriggerStatus)) :
    ∀ pre : List (String × TriggerStatus),
      (∀ kt ∈ pre, p kt.2 = false) → p t = true →
      dispatchFirst p f (pre ++ (k, t) :: post) =
        (pre ++ (k, (f t).1) :: post, (f t).2) := by
  intro pre
  induction pre with
  | nil => intro _ ht; simp [dispatchFirst, ht]
  | cons kt rest ih =>
    intro h ht
    obtain ⟨k', t'⟩ := kt
    have hkt : p t' = false := h (k', t') (by simp)
    have hrest := ih (fun kt hm => h kt (by simp [hm])) ht
    simp [dispatchFirst, hkt, hrest]

/-- `sendEarlyNotification` never reaches `sendNewSMS`: the phone number
extracted from the stored status is always empty, so the routine throws
before the send. -/
theorem sendEarly_sms_nil (loc? : Option GPSLocation) (gsmReady smsOk : Bool)
    (t : TriggerStatus) : (sendEarlyNotificationRun loc? gsmReady smsOk t).2.1 = [] := by
  by_cases h : t.earlyNotificationSent <;>
    simp [sendEarlyNotificationRun, extractConfigFromStatus, h]

/-- The progress handler never sends an SMS for any trigger. -/
theorem onProgress_sms_nil (us : UploadStatus) (loc? : Option GPSLocation)
    (gsmReady smsOk : Bool) (t : TriggerStatus) :
    (onProgress us loc? gsmReady smsOk t).2 = [] := by
  simp only [onProgress]
  split
  · simp [sendEarly_sms_nil]
  · rfl

/-- A dispatch whose per-trigger function sends nothing sends nothing. -/
theorem dispatchFirst_sms_nil (p : TriggerStatus → Bool)
    (f : TriggerStatus → TriggerStatus × List SmsSend)
    (hf : ∀ t, (f t).2 = []) :
    ∀ tbl : List (String × TriggerStatus), (dispatchFirst p f tbl).2 = [] := by
  intro tbl
  induction tbl with
  | nil => rfl
  | cons kt rest ih =>
    obtain ⟨k, t⟩ := kt
    by_cases hp : p t <;> simp [dispatchFirst, hp, hf, ih]

/-- The completion handler never sends an SMS for any trigger
(`sendSmsNotification` throws at the empty extracted phone number before its
`sendNewSMS` call). -/
theorem onComplete_sms_nil (us : UploadStatus) (loc? : Option GPSLocation)
    (t : TriggerStatus) : (onComplete us loc? t).2 = [] := by
  simp only [onComplete]
  split <;> rfl

/-- The completion handler never changes which upload a trigger tracks. -/
theorem onComplete_uploadId (us : UploadStatus) (loc? : Option GPSLocation)
    (t : TriggerStatus) : ((onComplete us loc? t).1).uploadId = t.uploadId := by
  cases loc? <;> simp only [onComplete, updateLocationData] <;>
    split <;> (try split) <;> simp

/-- Handling the same completion event a second time on the already-updated
trigger changes nothing and sends nothing. -/
theorem onComplete_idem (us : UploadStatus) (loc? : Option GPSLocation)
    (t : TriggerStatus) :
    onComplete us loc? (onComplete us loc? t).1 = ((onComplete us loc? t).1, []) := by
  cases hl : us.webViewLink with
  | none =>
    by_cases he : t.earlyNotificationSent <;>
      by_cases hs : t.currentStep = TriggerStep.uploading <;>
      cases loc? <;>
      simp [onComplete, updateLocationData, he, hs, hl]
  | some l =>
    by_cases he : t.earlyNotificationSent <;>
      by_cases hs : t.currentStep = TriggerStep.uploading <;>
      cases loc? <;>
      simp [onComplete, updateLocationData, he, hs, hl]

/-! ## Concrete trigger fixtures -/

/-- The final snapshot of a completed 8 MiB upload, as carried by an
`upload-complete` event. -/
def usDone : UploadStatus :=
  { init8M with
    fileId := some "f1"
    webViewLink := some "https://drive.google.com/file/d/f1/view"
    bytesUploaded := 2 ^ 23
    percentComplete := 100
    status := .completed
    endTime := some 0 }

/-- A trigger still before its upload stage, tracking no upload. -/
def trigIdle : TriggerStatus :=
  { id := "trigger_0"
    createdAt := 0
    completed := false
    currentStep := .recording
    uploadId := none
    uploadStatus := none
    uploadedFileId := none
    uploadedFileLink := none
    smsStatus := none
    earlyNotificationSent := false
    locationData := none
    error := none }

/-- A trigger in its upload stage tracking upload `u1`. -/
def trigTracking : TriggerStatus :=
  { trigIdle with id := "trigger_1", currentStep := .uploading, uploadId := some "u1" }

/-- A trigger tracking upload `u1` whose early notification has been sent:
the early-notification routine leaves the stage at `notifying` and the flag
set. -/
def trigEarly : TriggerStatus :=
  { trigIdle with
    id := "trigger_2"
    currentStep := .notifying
    uploadId := some "u1"
    earlyNotificationSent := true
    smsStatus := some true }

/-! ## C3 — completion after an early notification -/

/-- C3 (counterexample): the claim says that once the early notification has
been sent, the completion event moves the trigger straight to Completed with
the completion flag set.  For a trigger whose early notification was sent —
which leaves its stage at `notifying` — the completion event sends nothing
further (that part holds) but leaves the stage at `notifying` with the
completion flag still false, because the stage advance is guarded by
`currentStep === 'uploading'`. -/
theorem C3_counterexample :
    (handleUploadComplete "u1" usDone none [("trigger_2", trigEarly)]).2 = [] ∧
    ((handleUploadComplete "u1" usDone none [("trigger_2", trigEarly)]).1.map
        (fun kt => (kt.2.currentStep, kt.2.completed))) = [(.notifying, false)] ∧
    TriggerStep.notifying ≠ TriggerStep.completed := by
  decide

/-- C3 (amended): for a trigger whose early notification has been sent, the
completion event for its tracked upload sends no further notification and
records the snapshot, file id and link; it transitions the stage to
Completed (setting the completion flag) only when the stage is still
`uploading` — after a successful early notification the stage is
`notifying`, so it stays there and the completion flag is not set. -/
theorem C3_amended_theorem (us : UploadStatus) (loc? : Option GPSLocation)
    (t : TriggerStatus) (h : t.earlyNotificationSent = true) :
    onComplete us loc? t =
      ({ t with
         uploadStatus := some us
         uploadedFileId := us.fileId
         uploadedFileLink := us.webViewLink
         currentStep := if t.currentStep = .uploading then .completed else t.currentStep
         completed := if t.currentStep = .uploading then true else t.completed }, []) := by
  by_cases hs : t.currentStep = TriggerStep.uploading <;> simp [onComplete, h, hs]

/-- C3 (witness): the amended theorem at the early-notified trigger. -/
theorem C3_witness :
    trigEarly.earlyNotificationSent = true ∧
    onComplete usDone none trigEarly =
      ({ trigEarly with
         uploadStatus := some usDone
         uploadedFileId := usDone.fileId
         uploadedFileLink := usDone.webViewLink
         currentStep := if trigEarly.currentStep = .uploading then .completed
                        else trigEarly.currentStep
         completed := if trigEarly.currentStep = .uploading then true
                      else trigEarly.completed }, []) :=
  ⟨by decide, C3_amended_theorem usDone none trigEarly (by decide)⟩

/-! ## C4 — no early notification for triggers without the option -/

/-- C4: over any sequence of upload-progress events — in particular those
reporting 10 % or more for the tracked upload of a trigger started with
`sendEarlyNotification=false` — no SMS is ever sent, and the direct
`sendEarlyNotification` call performs no send either.  (This holds even more
strongly than claimed: the progress handler fires the early-notification
routine regardless of the configuration flag, but the routine always aborts
at the empty phone number extracted from the stored status, so no early SMS
is ever sent for any trigger.) -/
theorem C4_theorem (gsmReady smsOk : Bool) (evs : List ProgressEvent)
    (tbl : List (String × TriggerStatus)) (loc? : Option GPSLocation)
    (t : TriggerStatus) :
    (runProgressEvents gsmReady smsOk evs tbl).2 = [] ∧
    (sendEarlyNotificationRun loc? gsmReady smsOk t).2.1 = [] := by
  refine ⟨?_, sendEarly_sms_nil loc? gsmReady smsOk t⟩
  induction evs generalizing tbl with
  | nil => rfl
  | cons e es ih =>
    have h1 : (handleUploadProgress e.uid e.us e.loc? gsmReady smsOk tbl).2 = [] :=
      dispatchFirst_sms_nil _ _
        (fun t' => onProgress_sms_nil e.us e.loc? gsmReady smsOk t') tbl
    simp [runProgressEvents, handleUploadProgress] at h1 ⊢
    simp [h1, ih]

/-! ## C7 — duplicate completion events -/

/-- C7: delivering the same upload-completion event a second time to the
orchestrator changes no trigger — the stage-completion handler re-checks the
current stage, so the state machine is not advanced a second time — and
causes no notification to be sent. -/
theorem C7_theorem (uid : String) (us : UploadStatus) (loc? : Option GPSLocation)
    (tbl : List (String × TriggerStatus)) :
    handleUploadComplete uid us loc? (handleUploadComplete uid us loc? tbl).1 =
      ((handleUploadComplete uid us loc? tbl).1, []) := by
  simp only [handleUploadComplete]
  induction tbl with
  | nil => rfl
  | cons kt rest ih =>
    obtain ⟨k, t⟩ := kt
    by_cases hp : matchesUpload uid t = true
    · have hp' : matchesUpload uid (onComplete us loc? t).1 = true := by
        simp only [matchesUpload] at hp ⊢
        rw [onComplete_uploadId]
        exact hp
      simp [dispatchFirst, hp, hp', onComplete_idem us loc? t]
    · simp only [dispatchFirst, hp]
      simp [dispatchFirst, hp, ih]

/-! ## C10 — frame property of the event handlers -/

/-- C10: each upload lifecycle event (progress, completion, error) modifies
at most one trigger — the first entry in table order whose stored uploadId
equals the event's upload id — leaves every other entry unchanged, and an
event matching no trigger changes nothing and sends nothing. -/
theorem C10_theorem (uid msg : String) (us : UploadStatus) (loc? : Option GPSLocation)
    (gsmReady smsOk : Bool) (tbl pre post : List (String × TriggerStatus))
    (k : String) (t : TriggerStatus)
    (hnone : ∀ kt ∈ tbl, matchesUpload uid kt.2 = false)
    (hpre : ∀ kt ∈ pre, matchesUpload uid kt.2 = false)
    (ht : matchesUpload uid t = true) :
    (handleUploadProgress uid us loc? gsmReady smsOk tbl = (tbl, []) ∧
     handleUploadComplete uid us loc? tbl = (tbl, []) ∧
     handleUploadError uid msg loc? tbl = (tbl, [])) ∧
    (handleUploadProgress uid us loc? gsmReady smsOk (pre ++ (k, t) :: post) =
       (pre ++ (k, (onProgress us loc? gsmReady smsOk t).1) :: post,
        (onProgress us loc? gsmReady smsOk t).2) ∧
     handleUploadComplete uid us loc? (pre ++ (k, t) :: post) =
       (pre ++ (k, (onComplete us loc? t).1) :: post, (onComplete us loc? t).2) ∧
     handleUploadError uid msg loc? (pre ++ (k, t) :: post) =
       (pre ++ (k, (onError msg loc? t).1) :: post, (onError msg loc? t).2)) :=
  ⟨⟨dispatchFirst_no_match _ _ tbl hnone,
    dispatchFirst_no_match _ _ tbl hnone,
    dispatchFirst_no_match _ _ tbl hnone⟩,
   ⟨dispatchFirst_first_match _ _ k t post pre hpre ht,
    dispatchFirst_first_match _ _ k t post pre hpre ht,
    dispatchFirst_first_match _ _ k t post pre hpre ht⟩⟩

/-- C10 (witness): the frame property at a concrete two-trigger table, one
idle trigger ahead of the tracking one. -/
theorem C10_witness :
    (handleUploadProgress "u1" usDone none true true [("trigger_0", trigIdle)] =
       ([("trigger_0", trigIdle)], []) ∧
     handleUploadComplete "u1" usDone none [("trigger_0", trigIdle)] =
       ([("trigger_0", trigIdle)], []) ∧
     handleUploadError "u1" "net down" none [("trigger_0", trigIdle)] =
       ([("trigger_0", trigIdle)], [])) ∧
    (handleUploadProgress "u1" usDone none true true
        ([("trigger_0", trigIdle)] ++ ("trigger_1", trigTracking) :: []) =
       ([("trigger_0", trigIdle)] ++
          ("trigger_1", (onProgress usDone none true true trigTracking).1) :: [],
        (onProgress usDone none true true trigTracking).2) ∧
     handleUploadComplete "u1" usDone none
        ([("trigger_0", trigIdle)] ++ ("trigger_1", trigTracking) :: []) =
       ([("trigger_0", trigIdle)] ++
          ("trigger_1", (onComplete usDone none trigTracking).1) :: [],
        (onComplete usDone none trigTracking).2) ∧
     handleUploadError "u1" "net down" none
        ([("trigger_0", trigIdle)] ++ ("trigger_1", trigTracking) :: []) =
       ([("trigger_0", trigIdle)] ++
          ("trigger_1", (onError "net down" none trigTracking).1) :: [],
        (onError "net down" none trigTracking).2)) :=
  C10_theorem "u1" "net down" usDone none true true
    [("trigger_0", trigIdle)] [("trigger_0", trigIdle)] [] "trigger_1" trigTracking
    (by decide) (by decide) (by decide)

end GsmRpicam
